import Mathlib

/-!
Verification of the temporal-layer-selection and geometry-correction core of
the manchester-gis viewer.

The definitions below are a shallow embedding of the JavaScript source:

* `src/src/tilesets/index.js` — `TilesetManager` (lazy tileset registry,
  `_loadTileset`, `setYear`);
* `src/src/viewer.js` — `Viewer._getMatchingLayers`, `_getLayerState`,
  `_applyImagery`, `_applyTileset`, `applyLayerState`;
* `src/src/layers/entities3D.js` — `transformCoords`,
  `createBuildingEntitiesForMap`, `updateEntities3DVisibility`;
* the building-editor module — `handleAction`, `applyEditsToBuilding`,
  `transformCoords` (the variant taking a scale factor).

Numbers are modelled as exact rationals / integers.  JavaScript
`yearStart ?? -Infinity` / `yearEnd ?? Infinity` defaults are modelled with
`Option Int`, a missing bound making the corresponding comparison true.
`Math.PI`, `Math.cos` and `Math.sin` are opaque to the source, so they are
passed in as a `TrigModel` parameter; a theorem holding for every
`TrigModel` holds independently of any trigonometric evaluation.
Asynchronous functions are split at their `await` points into an explicit
start phase and a resume phase, so that interleavings of concurrent calls
can be replayed as sequences of those phases.
-/

namespace ManchesterGis

/-- Year-range membership test shared by every temporal filter in the source:
`year >= (yearStart ?? -Infinity) && year <= (yearEnd ?? Infinity)`.
A missing bound behaves as minus/plus infinity. -/
def inRange (year : Int) (ys ye : Option Int) : Bool :=
  (match ys with
   | none => true
   | some a => decide (a ≤ year)) &&
  (match ye with
   | none => true
   | some b => decide (year ≤ b))

/-! ## Layer catalog (`Viewer._layerConfigs`, `config.layers`) -/

/-- One entry of `config.layers` as consumed by `Viewer`: a kind tag
(`"imagery"` or `"tileset"`), an optional year range, and a display name. -/
structure LayerConfig where
  name : String
  kind : String
  yearStart : Option Int := none
  yearEnd : Option Int := none
deriving DecidableEq, Repr

/-- Embedding of `Viewer._getMatchingLayers(year, kind)`:
`this._layerConfigs.filter(l => l.kind === kind && year >= (l.yearStart ?? -Infinity) && year <= (l.yearEnd ?? Infinity))`. -/
def getMatchingLayers (configs : List LayerConfig) (year : Int) (kind : String) :
    List LayerConfig :=
  configs.filter (fun l => l.kind == kind && inRange year l.yearStart l.yearEnd)

/-- Embedding of the tileset component of `Viewer._getLayerState(year)`:
`this._getMatchingLayers(year, 'tileset')[0] || null`. -/
def getLayerStateTileset (configs : List LayerConfig) (year : Int) :
    Option LayerConfig :=
  (getMatchingLayers configs year "tileset").head?

/-! ## TilesetManager (src/src/tilesets/index.js) -/

/-- One tileset configuration as registered with `TilesetManager.load`. -/
structure TSConfig where
  name : String
  yearStart : Option Int := none
  yearEnd : Option Int := none
deriving DecidableEq, Repr

/-- One entry of `TilesetManager.pendingConfigs`: a config plus its
`loaded` flag. -/
structure PendingConfig where
  config : TSConfig
  loaded : Bool
deriving DecidableEq, Repr

/-- One entry of `TilesetManager.tilesets`: a materialized tileset, of which
the model keeps the config identity and the Cesium `show` flag (field `shown` models `.show`). -/
structure TSEntry where
  config : TSConfig
  shown : Bool
deriving DecidableEq, Repr

/-- The mutable fields of a `TilesetManager` instance. -/
structure TMState where
  tilesets : List TSEntry
  pendingConfigs : List PendingConfig
  currentYear : Option Int
  activeTileset : Option TSConfig
deriving DecidableEq, Repr

/-- `TilesetManager.load(configs)` registers configs for lazy loading
without materializing anything. -/
def tmLoad (configs : List TSConfig) : TMState :=
  { tilesets := []
    pendingConfigs := configs.map (fun c => { config := c, loaded := false })
    currentYear := none
    activeTileset := none }

/-- The `for (const t of this.tilesets) t.tileset.show = false;` loop of
`setYear`. -/
def hideAllTilesets (ts : List TSEntry) : List TSEntry :=
  ts.map (fun t => { t with shown := false })

/-- Setting `show = true` on the entry at a given index
(`matching[0].tileset.show = true`, with `matching[0]` identified by its
position in `this.tilesets`). -/
def showEntryAt : Nat → List TSEntry → List TSEntry
  | _, [] => []
  | 0, t :: ts => { t with shown := true } :: ts
  | n + 1, t :: ts => t :: showEntryAt n ts

/-- The tail of `TilesetManager.setYear`: find the tilesets matching the
captured `year`, hide all tilesets, show the first match and record it as
`activeTileset` (or clear `activeTileset` when nothing matches). -/
def applyActiveTileset (year : Int) (s : TMState) : TMState :=
  match s.tilesets.findIdx? (fun t => inRange year t.config.yearStart t.config.yearEnd) with
  | some i =>
      { s with
        tilesets := showEntryAt i (hideAllTilesets s.tilesets)
        activeTileset := (s.tilesets.get? i).map (fun t => t.config) }
  | none =>
      { s with tilesets := hideAllTilesets s.tilesets, activeTileset := none }

/-- The synchronous prefix of `TilesetManager.setYear(year)` (everything
before `await Promise.all(pendingForYear.map(p => this._loadTileset(p)))`):
record `currentYear` and capture the pending configs that must be
lazy-loaded (`_getPendingForYear`: not yet loaded and in range). -/
def setYearStart (year : Int) (s : TMState) : TMState × List TSConfig :=
  ({ s with currentYear := some year },
   ((s.pendingConfigs.filter
       (fun p => !p.loaded && inRange year p.config.yearStart p.config.yearEnd)).map
     (fun p => p.config)))

/-- The continuation of `TilesetManager.setYear(year)` after the awaited
lazy loads resolve: each `_loadTileset` continuation pushes its tileset
(created with `show = false`) onto `this.tilesets` and marks its pending
entry `loaded`; then the captured `year` — not the possibly-updated
`currentYear` — selects and shows the first matching tileset. -/
def setYearResume (year : Int) (toLoad : List TSConfig) (s : TMState) : TMState :=
  applyActiveTileset year
    { s with
      pendingConfigs :=
        s.pendingConfigs.map
          (fun p => if toLoad.contains p.config then { p with loaded := true } else p)
      tilesets := s.tilesets ++ toLoad.map (fun c => { config := c, shown := false }) }

/-- A complete, un-interleaved run of `TilesetManager.setYear(year)`. -/
def setYearRun (year : Int) (s : TMState) : TMState :=
  let started := setYearStart year s
  setYearResume year started.2 started.1

/-! ## Viewer layer rendering (src/src/viewer.js) -/

/-- One entry of `Viewer._imageryLayers`: a Cesium imagery layer, of which
the model keeps the backing `_config`, the `show` flag (field `shown`) and a
creation token `createdAt` standing for the identity of the underlying
Cesium object, so that "removed and recreated" is observable. -/
structure ImageryLayer where
  config : LayerConfig
  createdAt : Nat
  shown : Bool
deriving DecidableEq, Repr

/-- The imagery-related fields of a `Viewer`: the current layer list and a
fresh-token counter for newly constructed layers. -/
structure ImageryState where
  imageryLayers : List ImageryLayer
  nextToken : Nat
deriving DecidableEq, Repr

/-- The change test of `Viewer._applyImagery`:
`newConfigs.length !== oldConfigs.length || newConfigs.some((c, i) => c !== oldConfigs[i])`. -/
def configsChanged (newConfigs oldConfigs : List LayerConfig) : Bool :=
  decide (newConfigs.length ≠ oldConfigs.length) ||
    (newConfigs.zip oldConfigs).any (fun p => decide (p.1 ≠ p.2))

/-- Embedding of `Viewer._applyImagery(imageryState)`; `imageryState` is the
list of `(config, visible)` pairs produced by `_getLayerState`.  When the
config list changed, every existing layer is removed and a fresh layer is
constructed per entry (fresh `createdAt` tokens); otherwise only the `show`
flags are updated in place. -/
def applyImagery (s : ImageryState) (imageryState : List (LayerConfig × Bool)) :
    ImageryState :=
  let newConfigs := imageryState.map (fun i => i.1)
  let oldConfigs := s.imageryLayers.map (fun l => l.config)
  if configsChanged newConfigs oldConfigs then
    { imageryLayers :=
        imageryState.enum.map
          (fun e => { config := e.2.1, createdAt := s.nextToken + e.1, shown := e.2.2 })
      nextToken := s.nextToken + imageryState.length }
  else
    { s with
      imageryLayers :=
        s.imageryLayers.zipWith
          (fun l e => { l with shown := e.2 }) imageryState }

/-- The tileset-related fields of a `Viewer`: `this.year` (derived from the
Cesium clock at access time), the `_loadedTilesets` cache (config to the
`show` flag of the cached Cesium tileset) and `_activeTilesetConfig`. -/
structure VState where
  year : Int
  loadedTilesets : List (LayerConfig × Bool)
  activeTilesetConfig : Option LayerConfig
deriving DecidableEq, Repr

/-- Setting the `show` flag of the cached tileset of a given config. -/
def setCachedShow (cfg : LayerConfig) (v : Bool) (l : List (LayerConfig × Bool)) :
    List (LayerConfig × Bool) :=
  l.map (fun p => if p.1 = cfg then (p.1, v) else p)

/-- The opening of `Viewer._applyTileset`: when an active tileset exists and
differs from the requested config, hide its cached Cesium tileset. -/
def hidePreviousTileset (cfg? : Option LayerConfig) (s : VState) : VState :=
  match s.activeTilesetConfig with
  | some prev =>
      if cfg? ≠ some prev then
        { s with loadedTilesets := setCachedShow prev false s.loadedTilesets }
      else s
  | none => s

/-- The continuation of `Viewer._applyTileset(cfg, year)` after
`await this._createTileset(cfg)` resolves on a cache miss.  `captured` is
the `year` argument recorded at call start.  The source checks
`year !== this.year` twice — once before `primitives.add` and
`_loadedTilesets.set`, once before `tileset.show = true` — with no further
suspension between the checks, so both compare the same values: a stale
resolution returns before adding, caching or showing anything. -/
def resumeApplyTileset (captured : Int) (cfg : LayerConfig) (s : VState) : VState :=
  if captured ≠ s.year then s
  else
    { s with
      loadedTilesets := s.loadedTilesets ++ [(cfg, true)]
      activeTilesetConfig := some cfg }

/-- The synchronous part of `Viewer._applyTileset(cfg?, year)`: hide the
previous tileset, then either finish in place (no config, or cache hit) or
suspend at `await this._createTileset` returning the captured year and
config for `resumeApplyTileset`. -/
def applyTilesetStart (year : Int) (cfg? : Option LayerConfig) (s : VState) :
    VState ⊕ (Int × LayerConfig × VState) :=
  let s0 := hidePreviousTileset cfg? s
  match cfg? with
  | none => Sum.inl { s0 with activeTilesetConfig := none }
  | some cfg =>
      match s0.loadedTilesets.find? (fun p => p.1 == cfg) with
      | some _ =>
          Sum.inl
            (if year ≠ s0.year then s0
             else
               { s0 with
                 loadedTilesets := setCachedShow cfg true s0.loadedTilesets
                 activeTilesetConfig := some cfg })
      | none => Sum.inr (year, cfg, s0)

/-! ## Lazy construction of one tileset (`TilesetManager._loadTileset`) -/

/-- The per-pending-config state that `_loadTileset` manipulates: the
`loaded` flag and a count of how many times the underlying factory has been
invoked (the "underlying construction calls"). -/
structure LoadFlagState where
  loaded : Bool
  constructions : Nat
deriving DecidableEq, Repr

/-- A complete, un-interleaved run of `TilesetManager._loadTileset(pending)`:
`if (pending.loaded) return;` then `await pending.factory(...)` (one
construction) and finally `pending.loaded = true`. -/
def loadTilesetRun (s : LoadFlagState) : LoadFlagState :=
  if s.loaded then s
  else { loaded := true, constructions := s.constructions + 1 }

/-- The progress of one in-flight `_loadTileset` call: not yet started the
body, suspended at `await pending.factory(...)`, or returned. -/
inductive CallPhase
  | ready
  | constructing
  | finished
deriving DecidableEq, Repr

/-- One scheduler step of a `_loadTileset` call.  From `ready` the call
checks `pending.loaded` — returning at once when set, otherwise invoking the
factory (a construction) and suspending.  From `constructing` the awaited
factory resolves and the continuation sets `pending.loaded = true`. -/
def stepCall : CallPhase → LoadFlagState → CallPhase × LoadFlagState
  | CallPhase.ready, s =>
      if s.loaded then (CallPhase.finished, s)
      else (CallPhase.constructing, { s with constructions := s.constructions + 1 })
  | CallPhase.constructing, s => (CallPhase.finished, { s with loaded := true })
  | CallPhase.finished, s => (CallPhase.finished, s)

/-- Two concurrent `_loadTileset` calls for the same pending config, plus
the shared pending state. -/
structure TwoCallState where
  first : CallPhase
  second : CallPhase
  pending : LoadFlagState
deriving DecidableEq, Repr

/-- Replay of a schedule over two concurrent `_loadTileset` calls: `false`
steps the first call, `true` steps the second. -/
def runSchedule : List Bool → TwoCallState → TwoCallState
  | [], st => st
  | b :: rest, st =>
      if b then
        let stepped := stepCall st.second st.pending
        runSchedule rest { st with second := stepped.1, pending := stepped.2 }
      else
        let stepped := stepCall st.first st.pending
        runSchedule rest { st with first := stepped.1, pending := stepped.2 }

/-! ## Geometry transform engine -/

/-- The trigonometric environment the source draws from (`Math.PI`,
`Math.cos`, `Math.sin`).  These are opaque host functions, so the embedding
takes them as parameters: a result holding for every `TrigModel` is
independent of any trigonometric evaluation. -/
structure TrigModel where
  pi : ℚ
  cos : ℚ → ℚ
  sin : ℚ → ℚ

/-- A concrete trig model whose `cos` is constantly `1` and whose `sin` is
constantly `0`; it satisfies `cos 0 = 1` and `sin 0 = 0`. -/
def tmStd : TrigModel :=
  { pi := 355 / 113, cos := fun _ => 1, sin := fun _ => 0 }

/-- A concrete trig model whose `cos` and `sin` are constantly `0`, used to
detect whether a computation evaluates trigonometry. -/
def tmZero : TrigModel :=
  { pi := 0, cos := fun _ => 0, sin := fun _ => 0 }

/-- Embedding of `transformCoords(coords, center, deltaLng, deltaLat,
deltaRotation)` from `src/src/layers/entities3D.js`: when
`deltaRotation === 0` it returns the pure translation without touching the
trig model; otherwise it rotates each point about `center` and translates. -/
def transformCoords3D (tm : TrigModel) (coords : List (ℚ × ℚ)) (center : ℚ × ℚ)
    (deltaLng deltaLat deltaRotation : ℚ) : List (ℚ × ℚ) :=
  if deltaRotation = 0 then
    coords.map (fun p => (p.1 + deltaLng, p.2 + deltaLat))
  else
    let radians := deltaRotation * tm.pi / 180
    let cosR := tm.cos radians
    let sinR := tm.sin radians
    coords.map (fun p =>
      let relLng := p.1 - center.1
      let relLat := p.2 - center.2
      let rotLng := relLng * cosR - relLat * sinR
      let rotLat := relLng * sinR + relLat * cosR
      (center.1 + rotLng + deltaLng, center.2 + rotLat + deltaLat))

/-- Embedding of `transformCoords(coords, center, dLon, dLat, dRotDeg,
scale)` from the building-editor module: unconditionally converts the
rotation delta to radians and evaluates `cos`/`sin`, scales each
center-relative point, rotates it and translates back; there is no
degenerate-case branch. -/
def transformCoordsEditor (tm : TrigModel) (coords : List (ℚ × ℚ)) (center : ℚ × ℚ)
    (dLon dLat dRotDeg scale : ℚ) : List (ℚ × ℚ) :=
  let dRotRad := dRotDeg * tm.pi / 180
  let cosR := tm.cos dRotRad
  let sinR := tm.sin dRotRad
  coords.map (fun p =>
    let x := (p.1 - center.1) * scale
    let y := (p.2 - center.2) * scale
    let xr := x * cosR - y * sinR
    let yr := x * sinR + y * cosR
    (center.1 + xr + dLon, center.2 + yr + dLat))

/-! ## Buildings and per-map alignment -/

/-- One geometry part of a building, with the immutable original
coordinates captured at load time (`_originalCoords`, `_originalOuter`,
`_originalInner`, `_originalPosition`) and the current `coords`. -/
structure EntityPart where
  id : String
  originalCoords : Option (List (ℚ × ℚ)) := none
  originalOuter : Option (List (ℚ × ℚ)) := none
  originalInner : Option (List (ℚ × ℚ)) := none
  originalPosition : Option (ℚ × ℚ) := none
  coords : Option (List (ℚ × ℚ)) := none
deriving DecidableEq, Repr

/-- A catalog building: base center, base rotation (possibly absent) and
its geometry parts.  Per-map alignment entries are passed separately, as
the looked-up `building.maps[mapId]` value. -/
structure Building where
  id : String
  center : ℚ × ℚ
  rotation : Option ℚ := none
  entities : List EntityPart := []
deriving DecidableEq, Repr

/-- A catalog per-map alignment entry `building.maps[mapId]`: optional
override center, rotation and scale.  The empty record models the `{}`
fallback used when the map has no entry. -/
structure MapAlignment where
  center : Option (ℚ × ℚ) := none
  rotation : Option ℚ := none
  scale : Option ℚ := none
deriving DecidableEq, Repr

/-- A user alignment edit (`buildingEdits[editKey]`): center and rotation
are always present once the edit exists; `scale` may be absent on edits
saved before scaling was introduced. -/
structure AlignmentEdit where
  center : ℚ × ℚ
  rotation : ℚ
  scale : Option ℚ := none
deriving DecidableEq, Repr

/-- The outcome of transforming one part in
`createBuildingEntitiesForMap`: the cloned entity definition with its
transformed `coords`/`outer`/`inner`/`position` (a field stays as the
untransformed input value when the corresponding original is absent,
matching the `{ ...entityDef }` clone). -/
structure TransformedPart where
  id : String
  coords : Option (List (ℚ × ℚ))
  outer : Option (List (ℚ × ℚ))
  inner : Option (List (ℚ × ℚ))
  position : Option (ℚ × ℚ)
deriving DecidableEq, Repr

/-- Embedding of `createBuildingEntitiesForMap(dataSource, building, mapId,
mapData, materials, show)` from `src/src/layers/entities3D.js`, restricted
to its geometry computation: deltas are measured from the building base
center and rotation to the catalog per-map target, and every original
coordinate list is transformed about the base center (this path takes no
scale). -/
def createBuildingEntitiesForMap (tm : TrigModel) (b : Building)
    (mapData : MapAlignment) : List TransformedPart :=
  let originalCenter := b.center
  let originalRotation := b.rotation.getD 0
  let targetCenter := mapData.center.getD originalCenter
  let targetRotation := mapData.rotation.getD originalRotation
  let deltaLng := targetCenter.1 - originalCenter.1
  let deltaLat := targetCenter.2 - originalCenter.2
  let deltaRotation := targetRotation - originalRotation
  b.entities.map (fun e =>
    { id := e.id
      coords :=
        match e.originalCoords with
        | some cs => some (transformCoords3D tm cs originalCenter deltaLng deltaLat deltaRotation)
        | none => e.coords
      outer := e.originalOuter.map
        (fun cs => transformCoords3D tm cs originalCenter deltaLng deltaLat deltaRotation)
      inner := e.originalInner.map
        (fun cs => transformCoords3D tm cs originalCenter deltaLng deltaLat deltaRotation)
      position := e.originalPosition.map
        (fun pt =>
          ((transformCoords3D tm [pt] originalCenter deltaLng deltaLat deltaRotation).headD pt)) })

/-- Embedding of `applyEditsToBuilding(buildingId, mapId, editKey)` from the
building-editor module, restricted to its geometry computation.  `mapData`
is the looked-up `building.maps[mapId]` (or the empty record) and `edits`
the stored user edit.  The baseline center/rotation are the catalog per-map
values falling back to the building base values, the deltas are the edit
values minus that baseline, the pivot passed to the editor transform is the
baseline center, and the result pairs each part id with its recomputed
coordinates (parts with neither `_originalCoords` nor `coords` are
skipped). -/
def applyEditsToBuilding (tm : TrigModel) (b : Building) (mapData : MapAlignment)
    (edits : AlignmentEdit) : List (String × List (ℚ × ℚ)) :=
  let originalCenter := mapData.center.getD b.center
  let originalRotation := mapData.rotation.getD (b.rotation.getD 0)
  let newCenter := edits.center
  let newRotation := edits.rotation
  let scale := edits.scale.getD (mapData.scale.getD 1)
  let dLon := newCenter.1 - originalCenter.1
  let dLat := newCenter.2 - originalCenter.2
  let dRot := newRotation - originalRotation
  b.entities.filterMap (fun e =>
    match e.originalCoords.or e.coords with
    | some cs =>
        some (e.id, transformCoordsEditor tm cs originalCenter dLon dLat dRot scale)
    | none => none)

/-- Definition following the claim wording of C4, used to compare against
the source: the resolved target is the user edit when present, else the
catalog per-map entry; `deltaLon`/`deltaLat` are measured from the BASE
center, `deltaRotation` is `(target.rotation ?? baseRotation) -
baseRotation`, and the pivot is the base center. -/
def claimedResolvedCoords (tm : TrigModel) (b : Building) (mapData : MapAlignment)
    (edit? : Option AlignmentEdit) (cs : List (ℚ × ℚ)) (scale : ℚ) : List (ℚ × ℚ) :=
  let baseCenter := b.center
  let baseRotation := b.rotation.getD 0
  let targetCenter :=
    match edit? with
    | some e => e.center
    | none => mapData.center.getD baseCenter
  let targetRotation :=
    match edit? with
    | some e => some e.rotation
    | none => mapData.rotation
  let deltaLon := targetCenter.1 - baseCenter.1
  let deltaLat := targetCenter.2 - baseCenter.2
  let deltaRotation := targetRotation.getD baseRotation - baseRotation
  transformCoordsEditor tm cs baseCenter deltaLon deltaLat deltaRotation scale

/-! ## Building-editor actions (`handleAction`) -/

/-- The shared mutable edit record the editor buttons act on. -/
structure EditRecord where
  center : ℚ × ℚ
  rotation : ℚ
  scale : ℚ
deriving DecidableEq, Repr

/-- The eight `data-action` button actions of the building editor. -/
inductive EditorAction
  | moveUp
  | moveDown
  | moveLeft
  | moveRight
  | rotateCW
  | rotateCCW
  | scaleUp
  | scaleDown
deriving DecidableEq, Repr

/-- JavaScript `%` on the non-negative operands produced by the rotation
buttons (both `(r - step + 360)` and `(r + step)` are non-negative for the
rotations the editor stores, and for non-negative operands JavaScript
truncated remainder agrees with the floor-based remainder). -/
def jsMod (a b : ℚ) : ℚ :=
  a - b * ((a / b).floor : ℚ)

/-- The module-level `scaleStep = 0.05` of the building editor. -/
def scaleStep : ℚ := 5 / 100

/-- The `switch (action)` body of `handleAction`, acting on the stored edit
record with the given move and rotate steps (`scaleStep` is the fixed
module constant). -/
def handleActionStep (moveStep rotateStep : ℚ) :
    EditorAction → EditRecord → EditRecord
  | EditorAction.moveUp, e => { e with center := (e.center.1, e.center.2 + moveStep) }
  | EditorAction.moveDown, e => { e with center := (e.center.1, e.center.2 - moveStep) }
  | EditorAction.moveLeft, e => { e with center := (e.center.1 - moveStep, e.center.2) }
  | EditorAction.moveRight, e => { e with center := (e.center.1 + moveStep, e.center.2) }
  | EditorAction.rotateCW, e => { e with rotation := jsMod (e.rotation - rotateStep + 360) 360 }
  | EditorAction.rotateCCW, e => { e with rotation := jsMod (e.rotation + rotateStep) 360 }
  | EditorAction.scaleUp, e => { e with scale := min (e.scale + scaleStep) 3 }
  | EditorAction.scaleDown, e => { e with scale := max (e.scale - scaleStep) (1 / 4) }

/-! ## Visibility reconciler (`updateEntities3DVisibility`) -/

/-- The per-entity data `updateEntities3DVisibility` reads back from the
Cesium entity properties: `_startYear`, `_endYear` (absent for entities
created without them) and `_mapId` (`null` for legacy entities). -/
structure VisEntity where
  startYear : Option Int := none
  endYear : Option Int := none
  mapId : Option String := none
deriving DecidableEq, Repr

/-- JavaScript `value || dflt` on an optional integer property: both an
absent value and a zero value (the only falsy integer) yield the
default. -/
def jsOrInt (v : Option Int) (dflt : Int) : Int :=
  match v with
  | none => dflt
  | some a => if a = 0 then dflt else a

/-- Embedding of the per-entity body of `updateEntities3DVisibility`:
`inTimeRange = (startYear === undefined && endYear === undefined) ||
(year >= (startYear || 0) && year <= (endYear || 9999))`, where `||` is the
JavaScript falsy default — so an `endYear` of `0` also falls back to
`9999` — and a map-bound entity additionally requires its map to be in
`dataSource._visibleMaps`. -/
def computeShow (e : VisEntity) (year : Int) (visibleMaps : List String) : Bool :=
  let inTimeRange :=
    (e.startYear.isNone && e.endYear.isNone) ||
      (decide (jsOrInt e.startYear 0 ≤ year) && decide (year ≤ jsOrInt e.endYear 9999))
  match e.mapId with
  | some m => inTimeRange && visibleMaps.contains m
  | none => inTimeRange

/-- Definition following the claim wording of C8, used to compare against
the source: `inRange` treats a missing bound as minus/plus infinity, and the
final flag is conjoined with a `groupEnabled` toggle. -/
def claimedShow (e : VisEntity) (year : Int) (visibleMaps : List String)
    (groupEnabled : Bool) : Bool :=
  let inRangeInf := inRange year e.startYear e.endYear
  match e.mapId with
  | some m => inRangeInf && visibleMaps.contains m && groupEnabled
  | none => inRangeInf && groupEnabled

/-! ## Concrete fixtures -/

/-- Tileset descriptor `T1` of Scenario 2: `yearStart = -Infinity`,
`yearEnd = 1900`. -/
def tilesetT1 : TSConfig :=
  { name := "T1"
    yearEnd := some 1900 }

/-- Tileset descriptor `T2` of Scenario 2: `yearStart = 1900`,
`yearEnd = +Infinity`. -/
def tilesetT2 : TSConfig :=
  { name := "T2"
    yearStart := some 1900 }

/-- A `TilesetManager` that has registered `[T1, T2]` in that order. -/
def tmInit : TMState := tmLoad [tilesetT1, tilesetT2]

/-- The Scenario-2 catalog as `Viewer` layer configs. -/
def layerT1 : LayerConfig :=
  { name := "T1"
    kind := "tileset"
    yearEnd := some 1900 }

/-- The second Scenario-2 tileset as a `Viewer` layer config. -/
def layerT2 : LayerConfig :=
  { name := "T2"
    kind := "tileset"
    yearStart := some 1900 }

/-- Imagery descriptor `A` of Scenario 1 (1600–1700). -/
def imageryA : LayerConfig :=
  { name := "A"
    kind := "imagery"
    yearStart := some 1600
    yearEnd := some 1700 }

/-- Imagery descriptor `B` of Scenario 1 (1650–1750). -/
def imageryB : LayerConfig :=
  { name := "B"
    kind := "imagery"
    yearStart := some 1650
    yearEnd := some 1750 }

/-! ## C1 — Scenario 2 on the tileset selector -/

/-- Claim C1 (counterexample): with the catalog `[T1 (-inf, 1900],
T2 [1900, +inf)]` registered in that order, `selectYear(1899)` does make
`T1` active, but `selectYear(1900)` leaves `T1` — not `T2` — active: both
ranges contain 1900 (bounds are inclusive) and `setYear` shows
`matching[0]`, the earliest-registered match, as does
`Viewer._getLayerState` via `_getMatchingLayers(year, 'tileset')[0]`. -/
theorem c1_counterexample :
    (setYearRun 1899 tmInit).activeTileset = some tilesetT1 ∧
    (setYearRun 1900 (setYearRun 1899 tmInit)).activeTileset = some tilesetT1 ∧
    (setYearRun 1900 (setYearRun 1899 tmInit)).activeTileset ≠ some tilesetT2 ∧
    getLayerStateTileset [layerT1, layerT2] 1900 = some layerT1 := by
  decide

/-- Claim C1 (amended): `selectYear(1899)` makes `T1` active; at 1900 both
descriptors match (inclusive bounds) and the earliest-registered `T1` stays
active; `selectYear(1901)` makes `T2` active, with `T1` hidden
(`show = false`) but its materialized entry retained in the manager's
tileset list rather than destroyed. -/
theorem c1_amended :
    (setYearRun 1899 tmInit).activeTileset = some tilesetT1 ∧
    (setYearRun 1900 (setYearRun 1899 tmInit)).activeTileset = some tilesetT1 ∧
    (setYearRun 1901 (setYearRun 1899 tmInit)).activeTileset = some tilesetT2 ∧
    ({ config := tilesetT1, shown := false } : TSEntry) ∈
      (setYearRun 1901 (setYearRun 1899 tmInit)).tilesets ∧
    ({ config := tilesetT2, shown := true } : TSEntry) ∈
      (setYearRun 1901 (setYearRun 1899 tmInit)).tilesets := by
  decide

/-! ## C2 — imagery stacking invariant -/

/-- Unfolding of the shared range test into its two propositional bounds. -/
theorem inRange_eq_true_iff (year : Int) (ys ye : Option Int) :
    inRange year ys ye = true ↔
      (match ys with
       | none => True
       | some a => a ≤ year) ∧
      (match ye with
       | none => True
       | some b => year ≤ b) := by
  cases ys <;> cases ye <;> simp [inRange]

/-- Claim C2: for every catalog and query year, the imagery layers computed
by `_getMatchingLayers(year, 'imagery')` are exactly the catalog entries of
kind `imagery` whose year range (missing bounds read as minus/plus
infinity) contains the year; the result is a sublist of the catalog, hence
in registration order; and on the Scenario-1 catalog, year 1660 selects
`[A, B]` while year 1720 selects `[B]` only. -/
theorem c2_stacking_invariant :
    (∀ (configs : List LayerConfig) (year : Int) (l : LayerConfig),
      l ∈ getMatchingLayers configs year "imagery" ↔
        l ∈ configs ∧ l.kind = "imagery" ∧
          (match l.yearStart with
           | none => True
           | some a => a ≤ year) ∧
          (match l.yearEnd with
           | none => True
           | some b => year ≤ b)) ∧
    (∀ (configs : List LayerConfig) (year : Int),
      (getMatchingLayers configs year "imagery").Sublist configs) ∧
    getMatchingLayers [imageryA, imageryB] 1660 "imagery" = [imageryA, imageryB] ∧
    getMatchingLayers [imageryA, imageryB] 1720 "imagery" = [imageryB] := by
  refine ⟨?_, ?_, by decide, by decide⟩
  · intro configs year l
    simp only [getMatchingLayers, List.mem_filter, Bool.and_eq_true, beq_iff_eq,
      inRange_eq_true_iff]
  · intro configs year
    exact List.filter_sublist configs

/-! ## C3 — tileset exclusivity invariant -/

/-- Hiding every tileset leaves no shown entry. -/
theorem countP_hideAllTilesets (ts : List TSEntry) :
    (hideAllTilesets ts).countP (fun t => t.shown) = 0 := by
  induction ts with
  | nil => rfl
  | cons t ts ih =>
      simp only [hideAllTilesets, List.map_cons, List.countP_cons] at *
      simp [ih]

/-- Showing one entry raises the shown count by at most one. -/
theorem countP_showEntryAt_le (i : Nat) (ts : List TSEntry) :
    (showEntryAt i ts).countP (fun t => t.shown) ≤
      ts.countP (fun t => t.shown) + 1 := by
  induction ts generalizing i with
  | nil => simp [showEntryAt]
  | cons t ts ih =>
      cases i with
      | zero =>
          simp only [showEntryAt, List.countP_cons]
          split <;> omega
      | succ n =>
          simp only [showEntryAt, List.countP_cons]
          have := ih n
          split <;> omega

/-- Hiding all and then showing at most one entry leaves at most one shown
tileset, whatever the starting state. -/
theorem countP_applyActiveTileset (year : Int) (s : TMState) :
    ((applyActiveTileset year s).tilesets.countP (fun t => t.shown)) ≤ 1 := by
  unfold applyActiveTileset
  split
  · rename_i i _
    have h1 := countP_showEntryAt_le i (hideAllTilesets s.tilesets)
    have h2 := countP_hideAllTilesets s.tilesets
    simp only
    omega
  · simp [countP_hideAllTilesets]

/-- Claim C3: after any complete `setYear(year)` run, at most one entry of
the manager's tileset list has `show = true`: the run hides every tileset
and then shows at most the first year-matching one, so every other
registered tileset ends hidden whether or not its own range matches. -/
theorem c3_tileset_exclusivity (year : Int) (s : TMState) :
    ((setYearRun year s).tilesets.countP (fun t => t.shown)) ≤ 1 := by
  unfold setYearRun setYearResume
  exact countP_applyActiveTileset year _

/-! ## C4 — per-map alignment resolution -/

/-- A building part with original coordinates `[(3, 4)]`. -/
def partP1 : EntityPart :=
  { id := "p1"
    originalCoords := some [(3, 4)] }

/-- A building at base center `(0, 0)` with base rotation `0`. -/
def bldX : Building :=
  { id := "X"
    center := (0, 0)
    rotation := some 0
    entities := [partP1] }

/-- A catalog per-map alignment entry with center `(1, 0)` and rotation
`0`. -/
def mapM1 : MapAlignment :=
  { center := some (1, 0)
    rotation := some 0 }

/-- A user alignment edit with center `(2, 0)` and rotation `0`. -/
def editX : AlignmentEdit :=
  { center := (2, 0)
    rotation := 0 }

/-- Claim C4 (counterexample): when a user edit exists and the catalog
declares a per-map center, `applyEditsToBuilding` measures its deltas from
the catalog per-map center `(1, 0)` and pivots there — moving the point
`(3, 4)` to `(4, 4)` — whereas the claim's resolution (target = the user
edit, deltas from the BASE center `(0, 0)`, base center as pivot) would
produce `(5, 4)`. -/
theorem c4_counterexample :
    applyEditsToBuilding tmStd bldX mapM1 editX = [("p1", [(4, 4)])] ∧
    claimedResolvedCoords tmStd bldX mapM1 (some editX) [(3, 4)] 1 = [(5, 4)] ∧
    (applyEditsToBuilding tmStd bldX mapM1 editX).map (fun r => r.2) ≠
      [claimedResolvedCoords tmStd bldX mapM1 (some editX) [(3, 4)] 1] := by
  refine ⟨?_, ?_, ?_⟩ <;>
    norm_num [applyEditsToBuilding, claimedResolvedCoords, transformCoordsEditor,
      tmStd, bldX, mapM1, editX, partP1, Prod.ext_iff, List.filterMap_cons, Option.or]

/-- Claim C4 (amended): with no user edit, `createBuildingEntitiesForMap`
transforms every part's original coordinates with deltas measured from the
building base center/rotation to the catalog per-map target and the base
center as pivot (as the claim states); with a user edit,
`applyEditsToBuilding` instead measures the deltas from the catalog per-map
center/rotation (falling back to the base values) and pivots at that
per-map baseline center, applying the editor transform with scale
`edit.scale ?? mapData.scale ?? 1`. -/
theorem c4_amended :
    (∀ (tm : TrigModel) (b : Building) (mapData : MapAlignment)
        (e : EntityPart) (cs : List (ℚ × ℚ)),
      e ∈ b.entities → e.originalCoords = some cs →
        ∃ t ∈ createBuildingEntitiesForMap tm b mapData,
          t.id = e.id ∧
          t.coords = some (transformCoords3D tm cs b.center
            ((mapData.center.getD b.center).1 - b.center.1)
            ((mapData.center.getD b.center).2 - b.center.2)
            (mapData.rotation.getD (b.rotation.getD 0) - b.rotation.getD 0))) ∧
    (∀ (tm : TrigModel) (b : Building) (mapData : MapAlignment)
        (edits : AlignmentEdit) (e : EntityPart) (cs : List (ℚ × ℚ)),
      e ∈ b.entities → e.originalCoords = some cs →
        (e.id, transformCoordsEditor tm cs (mapData.center.getD b.center)
          (edits.center.1 - (mapData.center.getD b.center).1)
          (edits.center.2 - (mapData.center.getD b.center).2)
          (edits.rotation - mapData.rotation.getD (b.rotation.getD 0))
          (edits.scale.getD (mapData.scale.getD 1))) ∈
            applyEditsToBuilding tm b mapData edits) := by
  constructor
  · intro tm b mapData e cs hmem hcs
    refine ⟨_, List.mem_map_of_mem _ hmem, rfl, ?_⟩
    simp only [hcs]
  · intro tm b mapData edits e cs hmem hcs
    unfold applyEditsToBuilding
    apply List.mem_filterMap.mpr
    refine ⟨e, hmem, ?_⟩
    simp only [hcs, Option.or, Option.some.injEq]

/-- Witness for the edit branch of `c4_amended` at the concrete fixture. -/
theorem c4_amended_witness :
    partP1 ∈ bldX.entities ∧
    partP1.originalCoords = some [(3, 4)] ∧
    (partP1.id, transformCoordsEditor tmStd [(3, 4)] (mapM1.center.getD bldX.center)
      (editX.center.1 - (mapM1.center.getD bldX.center).1)
      (editX.center.2 - (mapM1.center.getD bldX.center).2)
      (editX.rotation - mapM1.rotation.getD (bldX.rotation.getD 0))
      (editX.scale.getD (mapM1.scale.getD 1))) ∈
        applyEditsToBuilding tmStd bldX mapM1 editX :=
  ⟨by simp [bldX], rfl,
    c4_amended.2 tmStd bldX mapM1 editX partP1 [(3, 4)] (by simp [bldX]) rfl⟩

/-! ## C5 — degenerate-case shortcut of the transform -/

/-- Claim C5 (counterexample): the editor `transformCoords` has no
degenerate-case branch — its output at `deltaRotationDeg = 0`, `scale = 1`
depends on the trig model (here one whose `cos`/`sin` are constantly `0`),
so it is not a pure translation computed without trigonometric evaluation;
the entities3D `transformCoords` does shortcut and returns the input even
under the same degenerate trig model. -/
theorem c5_counterexample :
    transformCoordsEditor tmZero [(1, 2)] (0, 0) 0 0 0 1 = [(0, 0)] ∧
    transformCoordsEditor tmZero [(1, 2)] (0, 0) 0 0 0 1 ≠
      [(1, 2)].map (fun p => (p.1 + 0, p.2 + 0)) ∧
    transformCoords3D tmZero [(1, 2)] (0, 0) 0 0 0 = [(1, 2)] := by
  refine ⟨?_, ?_, ?_⟩ <;>
    norm_num [transformCoordsEditor, transformCoords3D, tmZero, Prod.ext_iff]

/-- Claim C5 (amended): the entities3D `transformCoords` (which takes no
scale argument) shortcuts when `deltaRotation = 0`, returning the pure
translation for EVERY trig model — i.e. without trigonometric evaluation —
and returns the input list exactly when all deltas are zero; the editor
`transformCoords` always evaluates trigonometry, but whenever the trig
model satisfies `cos 0 = 1` and `sin 0 = 0` (as real trigonometry does) its
result at `deltaRotationDeg = 0`, `scale = 1` equals the pure translation
in exact arithmetic. -/
theorem c5_amended :
    (∀ (tm : TrigModel) (coords : List (ℚ × ℚ)) (center : ℚ × ℚ) (dLng dLat : ℚ),
      transformCoords3D tm coords center dLng dLat 0 =
        coords.map (fun p => (p.1 + dLng, p.2 + dLat))) ∧
    (∀ (tm : TrigModel) (coords : List (ℚ × ℚ)) (center : ℚ × ℚ),
      transformCoords3D tm coords center 0 0 0 = coords) ∧
    (∀ (tm : TrigModel), tm.cos 0 = 1 → tm.sin 0 = 0 →
      ∀ (coords : List (ℚ × ℚ)) (center : ℚ × ℚ) (dLon dLat : ℚ),
        transformCoordsEditor tm coords center dLon dLat 0 1 =
          coords.map (fun p => (p.1 + dLon, p.2 + dLat))) := by
  refine ⟨?_, ?_, ?_⟩
  · intro tm coords center dLng dLat
    simp [transformCoords3D]
  · intro tm coords center
    simp [transformCoords3D]
  · intro tm hcos hsin coords center dLon dLat
    have hfun :
        (fun p : ℚ × ℚ =>
          (center.1 + ((p.1 - center.1) * 1 * tm.cos (0 * tm.pi / 180) -
              (p.2 - center.2) * 1 * tm.sin (0 * tm.pi / 180)) + dLon,
           center.2 + ((p.1 - center.1) * 1 * tm.sin (0 * tm.pi / 180) +
              (p.2 - center.2) * 1 * tm.cos (0 * tm.pi / 180)) + dLat)) =
        (fun p : ℚ × ℚ => (p.1 + dLon, p.2 + dLat)) := by
      funext p
      rw [show (0 : ℚ) * tm.pi / 180 = 0 by ring, hcos, hsin]
      simp only [Prod.mk.injEq]
      exact ⟨by ring, by ring⟩
    calc transformCoordsEditor tm coords center dLon dLat 0 1
        = coords.map (fun p : ℚ × ℚ =>
            (center.1 + ((p.1 - center.1) * 1 * tm.cos (0 * tm.pi / 180) -
                (p.2 - center.2) * 1 * tm.sin (0 * tm.pi / 180)) + dLon,
             center.2 + ((p.1 - center.1) * 1 * tm.sin (0 * tm.pi / 180) +
                (p.2 - center.2) * 1 * tm.cos (0 * tm.pi / 180)) + dLat)) := rfl
      _ = coords.map (fun p => (p.1 + dLon, p.2 + dLat)) := by rw [hfun]

/-- Witness for the guarded branch of `c5_amended` at a concrete trig model
satisfying `cos 0 = 1` and `sin 0 = 0`. -/
theorem c5_amended_witness :
    tmStd.cos 0 = 1 ∧ tmStd.sin 0 = 0 ∧
    transformCoordsEditor tmStd [((1 : ℚ), (2 : ℚ))] (3, 4) 5 6 0 1 =
      [((1 : ℚ), (2 : ℚ))].map (fun p => (p.1 + 5, p.2 + 6)) :=
  ⟨rfl, rfl, c5_amended.2.2 tmStd rfl rfl [(1, 2)] (3, 4) 5 6⟩

/-! ## C6 — at-most-once construction -/

/-- Claim C6 (counterexample): two concurrent `_loadTileset` calls for the
same pending config, interleaved as first-checks / second-checks /
first-resolves / second-resolves, both pass the `if (pending.loaded)
return` check before either continuation sets `pending.loaded = true`, so
the underlying factory is constructed twice — not exactly once. -/
theorem c6_counterexample :
    (runSchedule [false, true, false, true]
        { first := CallPhase.ready
          second := CallPhase.ready
          pending := { loaded := false, constructions := 0 } }).first =
      CallPhase.finished ∧
    (runSchedule [false, true, false, true]
        { first := CallPhase.ready
          second := CallPhase.ready
          pending := { loaded := false, constructions := 0 } }).second =
      CallPhase.finished ∧
    (runSchedule [false, true, false, true]
        { first := CallPhase.ready
          second := CallPhase.ready
          pending := { loaded := false, constructions := 0 } }).pending.constructions = 2 ∧
    (runSchedule [false, true, false, true]
        { first := CallPhase.ready
          second := CallPhase.ready
          pending := { loaded := false, constructions := 0 } }).pending.constructions ≠ 1 := by
  decide

/-- Claim C6 (amended): invoking `_loadTileset` any positive number of
times SEQUENTIALLY (each call completing before the next begins) performs
exactly one underlying construction — the `loaded` flag set by the first
completed call short-circuits every later call — but overlapping calls are
not deduplicated: the interleaving of two concurrent calls above constructs
twice. -/
theorem c6_amended :
    (∀ n : ℕ,
      ((loadTilesetRun^[n + 1]) { loaded := false, constructions := 0 }).constructions = 1) ∧
    (runSchedule [false, true, false, true]
        { first := CallPhase.ready
          second := CallPhase.ready
          pending := { loaded := false, constructions := 0 } }).pending.constructions = 2 := by
  constructor
  · intro n
    rw [Function.iterate_succ_apply]
    have h1 : loadTilesetRun { loaded := false, constructions := 0 } =
        { loaded := true, constructions := 1 } := rfl
    have hfix : loadTilesetRun { loaded := true, constructions := 1 } =
        { loaded := true, constructions := 1 } := rfl
    rw [h1, Function.iterate_fixed hfix]
  · decide

/-! ## C7 — stale-result guard -/

/-- First step of the interleaving: `setYear(1899)` runs until its await
(capturing pending `T1` to load). -/
def raceStartA : TMState × List TSConfig := setYearStart 1899 tmInit

/-- Second step: `setYear(1901)` starts while the first call is suspended
(capturing pending `T2` to load) and updates `currentYear` to 1901. -/
def raceStartB : TMState × List TSConfig := setYearStart 1901 raceStartA.1

/-- Third step: the `setYear(1901)` call resolves first and completes,
showing `T2`. -/
def raceAfterB : TMState := setYearResume 1901 raceStartB.2 raceStartB.1

/-- Fourth step: the stale `setYear(1899)` load finally resolves and its
continuation completes against the captured year 1899. -/
def raceFinal : TMState := setYearResume 1899 raceStartA.2 raceAfterB

/-- Claim C7 (counterexample): `TilesetManager.setYear` has no stale-result
guard — after its awaited lazy load resolves it never compares the captured
year against `currentYear` — so when `setYear(1899)` resolves after
`setYear(1901)` has completed, the late continuation hides `T2` and shows
`T1`, leaving a tileset visible whose year range does not contain the
current year 1901. -/
theorem c7_counterexample :
    raceFinal.currentYear = some 1901 ∧
    raceFinal.activeTileset = some tilesetT1 ∧
    ({ config := tilesetT1, shown := true } : TSEntry) ∈ raceFinal.tilesets ∧
    inRange 1901 tilesetT1.yearStart tilesetT1.yearEnd = false := by
  decide

/-- Claim C7 (amended): the guard exists only in the `Viewer` path —
`Viewer._applyTileset` compares the year captured at call start against
`this.year` when `await _createTileset` resolves and abandons the stale
result, leaving the viewer state unchanged (nothing cached, shown or
activated) — while the `TilesetManager.setYear` path lacks the guard and
can show a stale tileset, as in the interleaving above. -/
theorem c7_amended :
    (∀ (captured : Int) (cfg : LayerConfig) (s : VState),
      captured ≠ s.year → resumeApplyTileset captured cfg s = s) ∧
    (raceFinal.currentYear = some 1901 ∧ raceFinal.activeTileset = some tilesetT1) := by
  constructor
  · intro captured cfg s h
    unfold resumeApplyTileset
    rw [if_pos h]
  · decide

/-- A viewer state whose clock year is 1901 while a load captured at 1899
resolves. -/
def vsEx : VState :=
  { year := 1901
    loadedTilesets := []
    activeTilesetConfig := none }

/-- Witness for the guard branch of `c7_amended`: a load captured at year
1899 resolving against clock year 1901 changes nothing. -/
theorem c7_amended_witness :
    (1899 : Int) ≠ vsEx.year ∧ resumeApplyTileset 1899 layerT1 vsEx = vsEx :=
  ⟨by decide, c7_amended.1 1899 layerT1 vsEx (by decide)⟩

/-! ## C8 — visibility reconciler -/

/-- An entity with no start year and end year 100, used to separate the
code's `startYear || 0` default from the claimed minus-infinity default. -/
def visE1 : VisEntity :=
  { endYear := some 100 }

/-- Claim C8 (counterexample): at year `-5` an entity with missing
`startYear` and `endYear = 100` is HIDDEN by `updateEntities3DVisibility` —
the code defaults a missing `startYear` to `0` (and a missing-or-zero
`endYear` to `9999`) unless both bounds are missing — whereas the claimed
reconciler
(missing bounds read as minus/plus infinity, conjoined with a
`groupEnabled` flag the code never consults) would show it. -/
theorem c8_counterexample :
    computeShow visE1 (-5) [] = false ∧
    claimedShow visE1 (-5) [] true = true ∧
    computeShow visE1 (-5) [] ≠ claimedShow visE1 (-5) [] true := by
  decide

/-- Claim C8 (amended): `computeShow` returns true exactly when the year
test passes — both bounds missing, or `(startYear || 0) <= year <=
(endYear || 9999)` under JavaScript falsy defaults (a missing `startYear`
reads as 0, and a missing or ZERO `endYear` reads as 9999) — and, for a
map-bound entity, its map is in the visible set; no `groupEnabled` flag
enters this computation. -/
theorem c8_amended (e : VisEntity) (year : Int) (maps : List String) :
    computeShow e year maps = true ↔
      ((e.startYear = none ∧ e.endYear = none) ∨
        (e.startYear.getD 0 ≤ year ∧
          year ≤ (if e.endYear.getD 0 = 0 then (9999 : Int) else e.endYear.getD 0))) ∧
      (match e.mapId with
       | some m => m ∈ maps
       | none => True) := by
  have hs : jsOrInt e.startYear 0 = e.startYear.getD 0 := by
    cases e.startYear with
    | none => rfl
    | some a =>
        by_cases ha : a = 0
        · simp [jsOrInt, ha]
        · simp [jsOrInt, ha]
  have he : jsOrInt e.endYear 9999 =
      (if e.endYear.getD 0 = 0 then (9999 : Int) else e.endYear.getD 0) := by
    cases e.endYear with
    | none => simp [jsOrInt]
    | some b =>
        by_cases hb : b = 0
        · simp [jsOrInt, hb]
        · simp [jsOrInt, hb]
  cases hm : e.mapId with
  | none =>
      simp [computeShow, hm, Option.isNone_iff_eq_none, hs, he]
  | some m =>
      simp [computeShow, hm, Option.isNone_iff_eq_none, hs, he, List.elem_iff]

/-! ## C9 — imagery delta application -/

/-- Zipping a list with itself never exhibits a differing pair. -/
theorem any_zip_ne_self (l : List LayerConfig) :
    ((l.zip l).any fun p => decide (p.1 ≠ p.2)) = false := by
  induction l with
  | nil => rfl
  | cons a l ih =>
      show (((a, a) :: l.zip l).any fun p => decide (p.1 ≠ p.2)) = false
      rw [List.any_cons, ih, Bool.or_false]
      exact decide_eq_false (fun h => h rfl)

/-- The change test accepts an unchanged config list. -/
theorem configsChanged_self (l : List LayerConfig) : configsChanged l l = false := by
  unfold configsChanged
  rw [any_zip_ne_self, Bool.or_false]
  exact decide_eq_false (fun h => h rfl)

/-- The change test fires on every actually-changed config list. -/
theorem eq_of_configsChanged_eq_false :
    ∀ {newConfigs oldConfigs : List LayerConfig},
      configsChanged newConfigs oldConfigs = false → newConfigs = oldConfigs := by
  intro newConfigs
  induction newConfigs with
  | nil =>
      intro oldConfigs h
      cases oldConfigs with
      | nil => rfl
      | cons o os => simp [configsChanged] at h
  | cons n ns ih =>
      intro oldConfigs h
      cases oldConfigs with
      | nil => simp [configsChanged] at h
      | cons o os =>
          unfold configsChanged at h
          rw [List.zip_cons_cons, List.any_cons] at h
          obtain ⟨ha, hb⟩ := Bool.or_eq_false_iff.mp h
          obtain ⟨hno, hrest⟩ := Bool.or_eq_false_iff.mp hb
          have hne : n = o := not_not.mp (of_decide_eq_false hno)
          have hlen : ns.length = os.length := by
            have := of_decide_eq_false ha
            simp only [List.length_cons] at this
            omega
          have hrec : configsChanged ns os = false := by
            unfold configsChanged
            rw [hrest, Bool.or_false]
            exact decide_eq_false (fun hcon => hcon hlen)
          rw [hne, ih hrec]

/-- Updating the show flags in place keeps each layer's config and creation
token. -/
theorem zipWith_shown_idents (ls : List ImageryLayer) (st : List (LayerConfig × Bool))
    (h : ls.length = st.length) :
    (List.zipWith (fun l e => { l with shown := e.2 }) ls st).map
        (fun l => (l.config, l.createdAt)) =
      ls.map (fun l => (l.config, l.createdAt)) := by
  induction ls generalizing st with
  | nil => simp
  | cons a l ih =>
      cases st with
      | nil => simp at h
      | cons b t =>
          simp only [List.length_cons, Nat.add_right_cancel_iff] at h
          simp only [List.zipWith_cons_cons, List.map_cons, ih t h]

/-- Updating the show flags in place sets exactly the requested flags. -/
theorem zipWith_shown_flags (ls : List ImageryLayer) (st : List (LayerConfig × Bool))
    (h : ls.length = st.length) :
    (List.zipWith (fun l e => { l with shown := e.2 }) ls st).map (fun l => l.shown) =
      st.map (fun e => e.2) := by
  induction ls generalizing st with
  | nil =>
      cases st with
      | nil => simp
      | cons b t => simp at h
  | cons a l ih =>
      cases st with
      | nil => simp at h
      | cons b t =>
          simp only [List.length_cons, Nat.add_right_cancel_iff] at h
          simp only [List.zipWith_cons_cons, List.map_cons, ih t h]

/-- A one-layer imagery state holding descriptor `A` with creation token
`0`. -/
def imState0 : ImageryState :=
  { imageryLayers := [{ config := imageryA, createdAt := 0, shown := true }]
    nextToken := 1 }

/-- The imagery request produced by a year at which both `A` and `B`
match. -/
def imRequest : List (LayerConfig × Bool) := [(imageryA, true), (imageryB, true)]

/-- Claim C9 (counterexample): descriptor `A` is active both before and
after the change from `[A]` to `[A, B]`, yet `_applyImagery` does not leave
its layer in place: any change of the config list removes every existing
layer and recreates the whole stack, so the layer holding `A` afterwards is
a fresh construction (token 1), not the original (token 0). -/
theorem c9_counterexample :
    ({ config := imageryA, createdAt := 0, shown := true } : ImageryLayer) ∈
      imState0.imageryLayers ∧
    imageryA ∈ imRequest.map (fun i => i.1) ∧
    ({ config := imageryA, createdAt := 0, shown := true } : ImageryLayer) ∉
      (applyImagery imState0 imRequest).imageryLayers ∧
    (applyImagery imState0 imRequest).imageryLayers.map
        (fun l => (l.config.name, l.createdAt)) = [("A", 1), ("B", 2)] := by
  decide

/-- Claim C9 (amended): when the new active config list equals the previous
one, no imagery layer is rebuilt — every layer keeps its config and
creation token, only the show flags are updated, and no fresh token is
consumed; when the lists differ at all, the entire stack is recreated —
every layer in the result carries a freshly allocated token. -/
theorem c9_amended :
    (∀ (s : ImageryState) (st : List (LayerConfig × Bool)),
      st.map (fun i => i.1) = s.imageryLayers.map (fun l => l.config) →
        (applyImagery s st).imageryLayers.map (fun l => (l.config, l.createdAt)) =
          s.imageryLayers.map (fun l => (l.config, l.createdAt)) ∧
        (applyImagery s st).imageryLayers.map (fun l => l.shown) =
          st.map (fun i => i.2) ∧
        (applyImagery s st).nextToken = s.nextToken) ∧
    (∀ (s : ImageryState) (st : List (LayerConfig × Bool)),
      st.map (fun i => i.1) ≠ s.imageryLayers.map (fun l => l.config) →
        ∀ l ∈ (applyImagery s st).imageryLayers, s.nextToken ≤ l.createdAt) := by
  constructor
  · intro s st h
    have hcc : configsChanged (st.map (fun i => i.1))
        (s.imageryLayers.map (fun l => l.config)) = false := by
      rw [h]; exact configsChanged_self _
    have hlen : s.imageryLayers.length = st.length := by
      have := congrArg List.length h
      simpa using this.symm
    have hstate : applyImagery s st =
        { s with imageryLayers :=
            s.imageryLayers.zipWith (fun l e => { l with shown := e.2 }) st } := by
      simp only [applyImagery, hcc, Bool.false_eq_true, if_false]
    rw [hstate]
    exact ⟨zipWith_shown_idents _ _ hlen, zipWith_shown_flags _ _ hlen, rfl⟩
  · intro s st h l hmem
    have hcc : configsChanged (st.map (fun i => i.1))
        (s.imageryLayers.map (fun l => l.config)) = true := by
      cases hc : configsChanged (st.map (fun i => i.1))
          (s.imageryLayers.map (fun l => l.config)) with
      | false => exact absurd (eq_of_configsChanged_eq_false hc) h
      | true => rfl
    simp only [applyImagery, hcc, if_true] at hmem
    obtain ⟨x, _, hx⟩ := List.mem_map.mp hmem
    have : l.createdAt = s.nextToken + x.1 := by rw [← hx]
    rw [this]
    exact Nat.le_add_right _ _

/-- Witness for `c9_amended`: with the active set unchanged at `[A]`, the
layer keeps token 0 and only its show flag changes; with the set changed to
`[A, B]`, every resulting layer token is at least the next counter 1. -/
theorem c9_amended_witness :
    ([((imageryA : LayerConfig), false)].map (fun i => i.1) =
      imState0.imageryLayers.map (fun l => l.config)) ∧
    ((applyImagery imState0 [(imageryA, false)]).imageryLayers.map
        (fun l => (l.config, l.createdAt)) =
      imState0.imageryLayers.map (fun l => (l.config, l.createdAt))) ∧
    (imRequest.map (fun i => i.1) ≠ imState0.imageryLayers.map (fun l => l.config)) ∧
    (∀ l ∈ (applyImagery imState0 imRequest).imageryLayers, imState0.nextToken ≤ l.createdAt) :=
  ⟨by decide,
   (c9_amended.1 imState0 [(imageryA, false)] (by decide)).1,
   by decide,
   c9_amended.2 imState0 imRequest (by decide)⟩

/-! ## C10 — scale clamping invariant -/

/-- Claim C10: each scale-up button sets the stored scale to
`min(scale + scaleStep, 3.0)` and each scale-down to
`max(scale - scaleStep, 0.25)`; consequently any sequence of scale actions
starting from a scale within `[0.25, 3.0]` keeps the persisted scale within
`[0.25, 3.0]`. -/
theorem c10_scale_clamping :
    (∀ (ms rs : ℚ) (e : EditRecord),
      (handleActionStep ms rs EditorAction.scaleUp e).scale =
        min (e.scale + scaleStep) 3 ∧
      (handleActionStep ms rs EditorAction.scaleDown e).scale =
        max (e.scale - scaleStep) (1 / 4)) ∧
    (∀ (ms rs : ℚ) (acts : List EditorAction) (e : EditRecord),
      (∀ a ∈ acts, a = EditorAction.scaleUp ∨ a = EditorAction.scaleDown) →
      1 / 4 ≤ e.scale → e.scale ≤ 3 →
      1 / 4 ≤ (acts.foldl (fun acc a => handleActionStep ms rs a acc) e).scale ∧
      (acts.foldl (fun acc a => handleActionStep ms rs a acc) e).scale ≤ 3) := by
  constructor
  · intro ms rs e
    exact ⟨rfl, rfl⟩
  · intro ms rs acts
    induction acts with
    | nil =>
        intro e _ h1 h2
        exact ⟨h1, h2⟩
    | cons a rest ih =>
        intro e hmem h1 h2
        rw [List.foldl_cons]
        have hstep : 1 / 4 ≤ (handleActionStep ms rs a e).scale ∧
            (handleActionStep ms rs a e).scale ≤ 3 := by
          rcases hmem a (List.mem_cons_self a rest) with ha | ha <;> subst ha
          · constructor
            · simp only [handleActionStep, le_min_iff]
              constructor
              · have : (0 : ℚ) ≤ scaleStep := by norm_num [scaleStep]
                linarith
              · norm_num
            · exact min_le_right _ _
          · constructor
            · exact le_max_right _ _
            · simp only [handleActionStep, max_le_iff]
              constructor
              · have : (0 : ℚ) ≤ scaleStep := by norm_num [scaleStep]
                linarith
              · norm_num
        exact ih (handleActionStep ms rs a e)
          (fun b hb => hmem b (List.mem_cons_of_mem a hb)) hstep.1 hstep.2

/-- Witness for `c10_scale_clamping` on the concrete action sequence
`[scaleUp, scaleDown]` starting from scale 1. -/
theorem c10_scale_clamping_witness :
    (∀ a ∈ ([EditorAction.scaleUp, EditorAction.scaleDown] : List EditorAction),
      a = EditorAction.scaleUp ∨ a = EditorAction.scaleDown) ∧
    (1 / 4 : ℚ) ≤ 1 ∧ (1 : ℚ) ≤ 3 ∧
    (1 / 4 ≤ (([EditorAction.scaleUp, EditorAction.scaleDown] : List EditorAction).foldl
        (fun acc a => handleActionStep 1 1 a acc)
        { center := (0, 0), rotation := 0, scale := 1 }).scale ∧
      (([EditorAction.scaleUp, EditorAction.scaleDown] : List EditorAction).foldl
        (fun acc a => handleActionStep 1 1 a acc)
        { center := (0, 0), rotation := 0, scale := 1 }).scale ≤ 3) :=
  ⟨by decide, by norm_num, by norm_num,
   c10_scale_clamping.2 1 1 [EditorAction.scaleUp, EditorAction.scaleDown]
     { center := (0, 0), rotation := 0, scale := 1 }
     (by decide) (by norm_num) (by norm_num)⟩

end ManchesterGis
